import Mathlib

/-!
Verification of the Template & Session Store core of the legal-drafting
repository.  The Python sources embedded here are
`app/services/template_engine.py`, `app/services/pinecone_service.py`,
`app/services/sqlite_service.py` and the `submit_answers` handler of
`app/main.py`.  Python strings are modelled as `List Char`, Python dicts as
association lists whose iteration order is the list order (Python dicts
iterate in insertion order), and the Pinecone index / SQLite table as
in-memory lists of rows.
-/

namespace Lexi

/-- Python strings, modelled as lists of characters. -/
abbrev Str := List Char

/-- A scalar value held in a session's `filled_values` mapping.
`vnone` models Python's `None`. -/
inductive Value where
  | vstr (s : Str)
  | vnone
deriving Repr, DecidableEq

/-- Python's `str(value)` conversion as used by
`TemplateEngine.generate_draft` (line 259): strings are unchanged and
`None` prints as `"None"`. -/
def pyStr : Value → Str
  | .vstr s => s
  | .vnone => "None".data

/-- A Python 'dict' of answers: association list in insertion order. -/
abbrev Dict := List (String × Value)

/-- `d[k]` lookup: first entry with key `k` (a genuine dict has at most one). -/
def dictGet (d : Dict) (k : String) : Option Value :=
  (d.find? (fun kv => kv.1 == k)).map (fun kv => kv.2)

/-- `k in d` test (`filled_keys = set(filled_values.keys())` membership). -/
def hasKey (d : Dict) (k : String) : Bool :=
  d.any (fun kv => kv.1 == k)

/-- Python's `{**a, **b}` dict merge: keys of `a` in their order with values
overridden by `b` where present, followed by the keys of `b` that are not in
`a`, in their order.  This is the merge used by both
`SQLiteDatabase.update_draft_session` (line 103) and
`PineconeDatabase.update_draft_session` (line 284). -/
def mergeDicts (a b : Dict) : Dict :=
  a.map (fun kv => (kv.1, (dictGet b kv.1).getD kv.2))
    ++ b.filter (fun kv => !(hasKey a kv.1))

theorem dictGet_nil (k : String) : dictGet [] k = none := rfl

theorem dictGet_append (a b : Dict) (k : String) :
    dictGet (a ++ b) k = (dictGet a k).orElse (fun _ => dictGet b k) := by
  induction a with
  | nil => simp [dictGet]
  | cons kv rest ih =>
    by_cases h : kv.1 == k
    · simp [dictGet, List.find?, h]
    · simpa [dictGet, List.find?, h] using ih

theorem hasKey_eq_false_iff (d : Dict) (k : String) :
    hasKey d k = false ↔ dictGet d k = none := by
  induction d with
  | nil => simp [hasKey, dictGet]
  | cons kv rest ih =>
    by_cases h : kv.1 == k
    · simp [hasKey, dictGet, List.find?, h]
    · simpa [hasKey, dictGet, List.find?, h] using ih

theorem hasKey_eq_true_iff (d : Dict) (k : String) :
    hasKey d k = true ↔ (dictGet d k).isSome := by
  rcases h : dictGet d k with _ | v
  · simp [← hasKey_eq_false_iff] at h
    simp [h]
  · have : ¬ dictGet d k = none := by simp [h]
    rw [← hasKey_eq_false_iff] at this
    simp [this, h]

theorem dictGet_map_override (a b : Dict) (k : String) :
    dictGet (a.map (fun kv => (kv.1, (dictGet b kv.1).getD kv.2))) k =
      (dictGet a k).map (fun v => (dictGet b k).getD v) := by
  induction a with
  | nil => simp [dictGet]
  | cons kv rest ih =>
    by_cases h : kv.1 == k
    · have hk : kv.1 = k := by simpa using h
      simp [dictGet, List.find?, h, hk]
    · simpa [dictGet, List.find?, h] using ih

theorem dictGet_filter_not_hasKey (a b : Dict) (k : String) (h : hasKey a k = false) :
    dictGet (b.filter (fun kv => !(hasKey a kv.1))) k = dictGet b k := by
  induction b with
  | nil => simp [dictGet]
  | cons kv rest ih =>
    by_cases hk : kv.1 == k
    · have : kv.1 = k := by simpa using hk
      simp [dictGet, List.find?, List.filter, this, h, hk]
    · by_cases ha : hasKey a kv.1
      · simpa [dictGet, List.filter, ha, List.find?, hk] using ih
      · simpa [dictGet, List.filter, ha, List.find?, hk] using ih

/-- The key correctness fact about Python's `{**a, **b}`: per-key
last-write-wins, keys absent from `b` keep their value from `a`. -/
theorem dictGet_mergeDicts (a b : Dict) (k : String) :
    dictGet (mergeDicts a b) k = (dictGet b k).orElse (fun _ => dictGet a k) := by
  unfold mergeDicts
  rw [dictGet_append, dictGet_map_override]
  rcases ha : dictGet a k with _ | v
  · have haf : hasKey a k = false := (hasKey_eq_false_iff a k).mpr ha
    rw [dictGet_filter_not_hasKey a b k haf]
    rcases dictGet b k with _ | w <;> simp [Option.orElse]
  · rcases hb : dictGet b k with _ | w <;> simp [Option.orElse, hb]

/-! ## Variable schemas (`app/models/schemas.py`) -/

/-- `VariableType` from `app/models/schemas.py`. -/
inductive VariableType where
  | text | date | number | email | address | choice
deriving Repr, DecidableEq

/-- `VariableSchema` from `app/models/schemas.py`: one fillable slot of a
template.  `enum` is the optional list of allowed choices; the source field
`example` is renamed `exampleText` because `example` is a Lean keyword. -/
structure VariableSchema where
  key : String
  label : String
  description : String
  exampleText : String
  required : Bool
  dtype : VariableType
  regex : Option String
  enum : Option (List String)
deriving Repr, DecidableEq

/-! ## Template engine (`app/services/template_engine.py`) -/

/-- The placeholder token for a key: the f-string
`f"{{{{{key}}}}}"` of `generate_draft` line 258, i.e. `{{key}}`
(written with escapes to keep braces out of code position). -/
def placeholder (k : String) : Str :=
  '\x7b' :: '\x7b' :: (k.data ++ ['\x7d', '\x7d'])

/-- Python's `s.replace(pat, rep)` for a non-empty `pat`: scan left to
right; at each position either the pattern matches and is consumed (the
replacement is emitted and never rescanned) or one character is copied.
Written with explicit fuel (every step consumes at least one character, so
`s.length` steps always suffice) to keep the function kernel-computable.
`generate_draft` only ever calls this with `pat = placeholder k`, which has
at least four characters, so the `pat = []` guard is unreachable there. -/
def replaceAllFuel : Nat → Str → Str → Str → Str
  | 0, s, _, _ => s
  | fuel + 1, s, pat, rep =>
    match s with
    | [] => []
    | c :: rest =>
      if pat ≠ [] ∧ pat.isPrefixOf (c :: rest) then
        rep ++ replaceAllFuel fuel ((c :: rest).drop pat.length) pat rep
      else
        c :: replaceAllFuel fuel rest pat rep

/-- Python's `s.replace(pat, rep)` (see `replaceAllFuel`). -/
def replaceAll (s pat rep : Str) : Str :=
  replaceAllFuel s.length s pat rep

/-- `TemplateEngine.generate_draft` (lines 253-267), markdown output only
(the HTML conversion is an external library call, out of scope): fold the
replacement of `{{key}}` by `str(value)` over the dict entries in
iteration order. -/
def generate_draft (markdown_content : Str) (values : Dict) : Str :=
  values.foldl (fun acc kv => replaceAll acc (placeholder kv.1) (pyStr kv.2)) markdown_content

/-- `TemplateEngine.get_missing_variables` (lines 269-272): required
variables whose key is not among the filled keys, in variable order. -/
def get_missing_variables (vars : List VariableSchema) (filled_values : Dict) :
    List VariableSchema :=
  vars.filter (fun v => v.required && !(hasKey filled_values v.key))

/-- `pat` occurs as a contiguous substring of `s`. -/
def hasOccurrence (pat : Str) : Str → Bool
  | [] => pat.isPrefixOf []
  | c :: rest => pat.isPrefixOf (c :: rest) || hasOccurrence pat rest

theorem replaceAllFuel_of_no_occurrence (fuel : Nat) (s pat rep : Str)
    (hf : s.length ≤ fuel) (h : hasOccurrence pat s = false) :
    replaceAllFuel fuel s pat rep = s := by
  induction fuel generalizing s with
  | zero => rfl
  | succ fuel ih =>
    cases s with
    | nil => rfl
    | cons c rest =>
      simp only [hasOccurrence, Bool.or_eq_false_iff] at h
      simp only [List.length_cons, Nat.succ_le_succ_iff] at hf
      rw [replaceAllFuel, if_neg (by simp [h.1])]
      exact congrArg (c :: ·) (ih rest hf h.2)

/-- A text containing no occurrence of the pattern is returned verbatim by
`replaceAll`. -/
theorem replaceAll_of_no_occurrence (s pat rep : Str) (h : hasOccurrence pat s = false) :
    replaceAll s pat rep = s :=
  replaceAllFuel_of_no_occurrence s.length s pat rep (Nat.le_refl _) h

/-! ## Template store (`app/services/pinecone_service.py`) -/

/-- Embedding vectors.  The Python floats are modelled as rationals; no
arithmetic is ever performed on them by this core, they are only
constructed, stored and compared. -/
abbrev Vec := List Rat

/-- `EmbeddingsService.dimension` / `PineconeDatabase.EMBEDDING_DIMENSION`. -/
def EMBEDDING_DIMENSION : Nat := 768

/-- The `[0.0] * 768` zero vector (lines 52 and 214). -/
def ZERO_VECTOR : Vec := List.replicate EMBEDDING_DIMENSION 0

/-- The Gemini embedding call is external; it is modelled as a function
returning `none` on failure (the `except` branch of `embed_text`). -/
abbrev EmbedProvider := Str → Option Vec

/-- `EmbeddingsService.embed_text` (lines 40-52): on upstream failure the
`except` branch returns the zero vector instead of raising. -/
def embed_text (provider : EmbedProvider) (text : Str) : Vec :=
  match provider text with
  | some v => v
  | none => ZERO_VECTOR

/-- A template record as stored in the Pinecone index: the upserted vector
`values` plus the metadata fields of `create_template` lines 111-120.  The
`vars` field (the source's `variables`, a Lean keyword) stands for the parsed content of `variables_json`; its
serialization is modelled separately (see `RawSessionRow`). -/
structure TemplateRow where
  id : String
  name : String
  matter_type : String
  description : String
  markdown_content : Str
  vars : List VariableSchema
  values : Vec
  created_at : String
deriving Repr, DecidableEq

/-- The template side of the Pinecone index: a list of
(namespace, record) pairs.  Draft sessions live in the disjoint
`DRAFT_NAMESPACE` partition and are modelled separately as `SessionStore`. -/
abbrev TemplateStore := List (String × TemplateRow)

/-- `matter_type.lower().replace(" ", "-")` — the namespace derivation used
by both `create_template` (line 131) and `get_template_by_id` (line 184).
The single-character replace is written as a character map, which is
equivalent and keeps the function kernel-computable. -/
def normalizeNamespace (matter_type : String) : String :=
  String.mk ((matter_type.data.map Char.toLower).map (fun c => if c = ' ' then '-' else c))

/-- The embedding seed text of `create_template` line 106:
`f"Matter Type: {matter_type}. Description: {description}. Content Sample: {markdown_content[:500]}"`. -/
def embeddingText (matter_type description : String) (markdown_content : Str) : Str :=
  "Matter Type: ".data ++ matter_type.data ++ ". Description: ".data
    ++ description.data ++ ". Content Sample: ".data ++ markdown_content.take 500

/-- `PineconeDatabase.create_template` (lines 97-142).  `fresh_id` and
`created_at` stand for the `uuid.uuid4()` and `datetime.now()` calls.  The
record is upserted into the namespace derived from `matter_type` and the
populated `Template` is returned; there is no failure path. -/
def create_template (provider : EmbedProvider) (store : TemplateStore)
    (fresh_id name matter_type description : String) (markdown_content : Str)
    (vars : List VariableSchema) (created_at : String) :
    TemplateStore × TemplateRow :=
  let vector := embed_text provider (embeddingText matter_type description markdown_content)
  let row : TemplateRow :=
    { id := fresh_id, name := name, matter_type := matter_type,
      description := description, markdown_content := markdown_content,
      vars := vars, values := vector, created_at := created_at }
  ((normalizeNamespace matter_type, row) :: store, row)

/-- `PineconeDatabase.get_template_by_id` (lines 179-206): a fetch by id
restricted to the single namespace derived from the caller-supplied
`matter_type`. -/
def get_template_by_id (store : TemplateStore) (template_id matter_type : String) :
    Option TemplateRow :=
  (store.find? (fun e => e.1 == normalizeNamespace matter_type && e.2.id == template_id)).map
    (fun e => e.2)

/-! ## Session store (`app/services/pinecone_service.py` draft-session CRUD;
`app/services/sqlite_service.py` is row-for-row the same model) -/

/-- `DraftSession` as returned by the services: parsed `filled_values` plus
status and bookkeeping fields. -/
structure DraftSession where
  session_id : String
  template_id : String
  filled_values : Dict
  status : String
  created_at : String
deriving Repr, DecidableEq

/-- The draft-session partition of the store, keyed by `session_id`. -/
abbrev SessionStore := List DraftSession

/-- `get_draft_session` (pinecone lines 252-273 / sqlite lines 70-95):
fetch by session id. -/
def get_draft_session (store : SessionStore) (session_id : String) : Option DraftSession :=
  store.find? (fun s => s.session_id == session_id)

/-- `create_draft_session` (pinecone lines 216-250 / sqlite lines 41-68):
unconditionally inserts a new row with status `"in_progress"` and
`filled_values = initial_context`; neither implementation consults the
template store, so no template-existence check happens.  `fresh_id` and
`created_at` stand for `uuid.uuid4()` and the timestamp call. -/
def create_draft_session (store : SessionStore) (fresh_id template_id : String)
    (initial_context : Dict) (created_at : String) : SessionStore × DraftSession :=
  let s : DraftSession :=
    { session_id := fresh_id, template_id := template_id,
      filled_values := initial_context, status := "in_progress",
      created_at := created_at }
  (s :: store, s)

/-- The write half of `update_draft_session`: the blind
`index.update(set_metadata={status, filled_values_json})` of pinecone lines
287-294 (the SQLite `UPDATE ... WHERE session_id = ?` of lines 106-118 is
the same operation).  It overwrites the row's values and status with data
computed by the caller, with no check against the current row. -/
def set_session_metadata (store : SessionStore) (session_id : String)
    (merged : Dict) (status : String) : SessionStore :=
  store.map (fun s =>
    if s.session_id == session_id then
      { s with filled_values := merged, status := status }
    else s)

/-- `update_draft_session` (pinecone lines 275-303 / sqlite lines 97-126):
an unguarded read (`get_draft_session`) followed by a caller-side merge
`{**existing.filled_values, **new_values}` and a blind write.  The Python
default for `status` is `"in_progress"`; callers that omit it are modelled
by passing `"in_progress"` explicitly.  Raises `ValueError` (modelled as
`Except.error`) only when the session id does not resolve. -/
def update_draft_session (store : SessionStore) (session_id : String)
    (new_values : Dict) (status : String) : Except String (SessionStore × DraftSession) :=
  match get_draft_session store session_id with
  | none => .error "Draft session not found for update."
  | some existing =>
    let merged := mergeDicts existing.filled_values new_values
    .ok (set_session_metadata store session_id merged status,
      { existing with filled_values := merged, status := status })

/-- Run an update for its store effect, keeping the store unchanged on the
(impossible-for-existing-ids) error path. -/
def runUpdate (store : SessionStore) (session_id : String)
    (new_values : Dict) (status : String) : SessionStore :=
  match update_draft_session store session_id new_values status with
  | .ok p => p.1
  | .error _ => store

/-- The `filled_values` of a stored session, `[]` when the id is absent. -/
def filledOf (store : SessionStore) (session_id : String) : Dict :=
  ((get_draft_session store session_id).map DraftSession.filled_values).getD []

/-- The `status` of a stored session, if present. -/
def statusOf (store : SessionStore) (session_id : String) : Option String :=
  (get_draft_session store session_id).map DraftSession.status

theorem get_set_session (store : SessionStore) (sid : String) (m : Dict) (st : String) :
    get_draft_session (set_session_metadata store sid m st) sid =
      (get_draft_session store sid).map
        (fun s => { s with filled_values := m, status := st }) := by
  induction store with
  | nil => rfl
  | cons s rest ih =>
    by_cases h : s.session_id == sid
    · have hs : s.session_id = sid := by simpa using h
      simp [get_draft_session, set_session_metadata, List.find?, h, hs]
    · simpa [get_draft_session, set_session_metadata, List.find?, h] using ih

/-! ## The `submit_answers` handler (`app/main.py` lines 284-333) -/

/-- Result of one `POST /draft/answer` call.  `pending` carries the missing
variables (the question texts produced from them by the LLM question
generator are external and out of scope); `completed` carries the rendered
markdown draft (the HTML rendering is an external library call);
`internalError` is the blanket `except Exception` of line 332, which turns
any exception raised inside the handler into an HTTP 500. -/
inductive SubmitResult where
  | sessionNotFound
  | templateNotFound
  | pending (missing : List VariableSchema)
  | completed (markdown_draft : Str)
  | internalError (detail : String)
deriving Repr, DecidableEq

/-- The `get_missing_variables` *call as made by the handler*: line 299
rebuilds `VariableSchema` objects from the stored dicts but line 300 then
passes `[v.dict() for v in variables]` — plain dicts again — to
`get_missing_variables`, whose `v.required` attribute access
(`template_engine.py` line 272) raises `AttributeError` on a dict.  The
list comprehension evaluates its predicate lazily, so the call raises
exactly when the variable list is non-empty and returns the empty missing
list otherwise. -/
def attrErrorMsg : String := "AttributeError: dict object has no attribute required"

def get_missing_variables_at_call_site (vars : List VariableSchema)
    (filled_values : Dict) : Except String (List VariableSchema) :=
  match vars with
  | [] => .ok (get_missing_variables [] filled_values)
  | _ :: _ => .error attrErrorMsg

/-- `submit_answers` (`app/main.py` lines 284-333): fetch the session
(404 when absent), merge the submitted answers with the default
`"in_progress"` status (line 292 — this write is persisted before anything
below can fail), re-fetch, fetch the template with the hard-coded `"IN"`
matter type (line 295), recompute the missing required variables through
the dict-passing call of line 300 (which raises for every template with at
least one variable; the blanket `except` of line 332 maps this to an HTTP
500, modelled as `internalError`, leaving the already-written merge in the
store); if variables are missing return them, otherwise render the draft
and write the session back with status `"completed"`.  The error branches
of the two `update_draft_session` calls and of the re-fetch are
unreachable because the session id was just found; they are mapped to
`sessionNotFound` for totality. -/
def submit_answers (tstore : TemplateStore) (sstore : SessionStore)
    (session_id : String) (answers : Dict) : SubmitResult × SessionStore :=
  match get_draft_session sstore session_id with
  | none => (.sessionNotFound, sstore)
  | some _ =>
    match update_draft_session sstore session_id answers "in_progress" with
    | .error _ => (.sessionNotFound, sstore)
    | .ok (sstore1, _) =>
      match get_draft_session sstore1 session_id with
      | none => (.sessionNotFound, sstore1)
      | some session =>
        match get_template_by_id tstore session.template_id "IN" with
        | none => (.templateNotFound, sstore1)
        | some tpl =>
          match get_missing_variables_at_call_site tpl.vars session.filled_values with
          | .error e => (.internalError e, sstore1)
          | .ok missing =>
            if missing.isEmpty then
              let draft := generate_draft tpl.markdown_content session.filled_values
              match update_draft_session sstore1 session_id [] "completed" with
              | .ok (sstore2, _) => (.completed draft, sstore2)
              | .error _ => (.sessionNotFound, sstore1)
            else
              (.pending missing, sstore1)

/-! ## The serialized layer (`filled_values_json` parsing)

`SQLiteDatabase.get_draft_session` stores `filled_values` as a JSON text
and re-parses it on every read, mapping `json.JSONDecodeError` to the empty
dict (lines 84-87); `PineconeDatabase.get_draft_session` does the same
(lines 261-264).  `parseJsonDict` models `json.loads` restricted to the
fragment this application writes: a flat object whose values are strings or
`null`, without escape sequences.  Inputs outside the fragment fail, as the
real parser fails on the concrete malformed inputs used below. -/

/-- Skip blanks (the `", "` and `": "` separators emitted by `json.dumps`). -/
def skipWs : Str → Str
  | [] => []
  | c :: rest => if c = ' ' then skipWs rest else c :: rest

/-- Read up to the closing quote of a string literal whose opening quote
has been consumed. -/
def takeStringContent : Str → Option (Str × Str)
  | [] => none
  | c :: rest =>
    if c = '"' then some ([], rest)
    else (takeStringContent rest).map (fun p => (c :: p.1, p.2))

/-- Parse a quoted string literal. -/
def parseStringLit : Str → Option (Str × Str)
  | [] => none
  | c :: rest => if c = '"' then takeStringContent rest else none

/-- Parse a scalar value: a string literal or `null`. -/
def parseScalar (s : Str) : Option (Value × Str) :=
  match s with
  | 'n' :: 'u' :: 'l' :: 'l' :: rest => some (.vnone, rest)
  | _ => (parseStringLit s).map (fun p => (.vstr p.1, p.2))

/-- Parse one or more comma-separated `"key": value` members. -/
def parsePairs : Nat → Str → Option (Dict × Str)
  | 0, _ => none
  | fuel + 1, s =>
    match parseStringLit (skipWs s) with
    | none => none
    | some (k, r1) =>
      match skipWs r1 with
      | ':' :: r2 =>
        match parseScalar (skipWs r2) with
        | none => none
        | some (v, r3) =>
          match skipWs r3 with
          | ',' :: r4 => (parsePairs fuel r4).map (fun p => ((String.mk k, v) :: p.1, p.2))
          | r4 => some ([(String.mk k, v)], r4)
      | _ => none

/-- Parse a flat JSON object. -/
def parseJsonDict (s : Str) : Option Dict :=
  match skipWs s with
  | '\x7b' :: r =>
    match skipWs r with
    | '\x7d' :: r2 => if (skipWs r2).isEmpty then some [] else none
    | r2 =>
      match parsePairs s.length r2 with
      | some (d, r3) =>
        match skipWs r3 with
        | '\x7d' :: r4 => if (skipWs r4).isEmpty then some d else none
        | _ => none
      | none => none
  | _ => none

/-- A raw `draft_sessions` row as it sits in SQLite (lines 29-38): the
`filled_values` are a serialized text column. -/
structure RawSessionRow where
  session_id : String
  template_id : String
  filled_values_json : Str
  status : String
  created_at : String
deriving Repr, DecidableEq

/-- The row decoding of `SQLiteDatabase.get_draft_session` lines 83-95:
`json.loads` with the `except json.JSONDecodeError: filled_values = {}`
fallback.  A payload that fails to parse silently becomes the empty dict. -/
def decode_session_row (r : RawSessionRow) : DraftSession :=
  { session_id := r.session_id, template_id := r.template_id,
    filled_values := (parseJsonDict r.filled_values_json).getD [],
    status := r.status, created_at := r.created_at }

/-- `SQLiteDatabase.get_draft_session` (lines 70-95) over a table of raw
rows: `none` only when the id is absent; a decode failure is *not* an
error path. -/
def get_draft_session_raw (rows : List RawSessionRow) (session_id : String) :
    Option DraftSession :=
  (rows.find? (fun r => r.session_id == session_id)).map decode_session_row

/-- Sanity: the parser does accept the payloads `json.dumps` writes. -/
theorem parseJsonDict_accepts_wellformed :
    parseJsonDict "\x7b\"v1\": \"a\", \"v2\": null\x7d".data =
      some [("v1", .vstr "a".data), ("v2", .vnone)] := by decide

/-! ## Concrete fixtures shared by the claim theorems -/

/-- A required text variable with key `k`. -/
def mkReqVar (k : String) : VariableSchema :=
  { key := k, label := k, description := "", exampleText := "",
    required := true, dtype := .text, regex := none, enum := none }

/-- An optional text variable with key `k`. -/
def mkOptVar (k : String) : VariableSchema :=
  { key := k, label := k, description := "", exampleText := "",
    required := false, dtype := .text, regex := none, enum := none }

/-- A demo template body `A: {{x}} B: {{y}}`. -/
def demoBody : Str :=
  "A: ".data ++ placeholder "x" ++ " B: ".data ++ placeholder "y"

/-- A demo template with two required variables, stored under the
namespace of matter type `"IN"` (so the hard-coded `"IN"` lookup of
`submit_answers` finds it). -/
def demoTemplate : TemplateRow :=
  { id := "t1", name := "Notice", matter_type := "IN", description := "d",
    markdown_content := demoBody, vars := [mkReqVar "x", mkReqVar "y"],
    values := ZERO_VECTOR, created_at := "t0" }

/-- The template store holding `demoTemplate`. -/
def demoTStore : TemplateStore := [("in", demoTemplate)]

/-- A session for `demoTemplate` that has already been completed, with both
required answers present. -/
def c1Session : DraftSession :=
  { session_id := "s1", template_id := "t1",
    filled_values := [("x", .vstr "1".data), ("y", .vstr "2".data)],
    status := "completed", created_at := "t0" }

/-- The session store holding only `c1Session`. -/
def c1Store : SessionStore := [c1Session]

/-- An in-progress session for `demoTemplate` whose two required keys are
present but carry `None` and `""` as values. -/
def c10Session : DraftSession :=
  { session_id := "s2", template_id := "t1",
    filled_values := [("x", .vnone), ("y", .vstr [])],
    status := "in_progress", created_at := "t0" }

/-- The session store holding only `c10Session`. -/
def c10Store : SessionStore := [c10Session]

/-- An existing session with one filled key, used to exercise the merge. -/
def c4Sess : DraftSession :=
  { session_id := "s", template_id := "t1",
    filled_values := [("v1", .vstr "a".data)],
    status := "in_progress", created_at := "t0" }

/-- The session store holding only `c4Sess`. -/
def c4Store : SessionStore := [c4Sess]

/-- A submission touching a fresh key. -/
def c4NV : Dict := [("v2", .vstr "b".data)]

/-! ## Claim theorems -/

/-- C4 (confirmed).  For every existing session, `update_draft_session`
succeeds, persists `filled_values ∪ new_values` computed by Python's
`{**existing, **new_values}`, and per key the looked-up value is the
submitted one when the key is in `new_values` and the previous one
otherwise (last-write-wins, non-destructive for untouched keys). -/
theorem merge_last_write_wins (store : SessionStore) (sid : String) (nv : Dict)
    (st : String) (sess : DraftSession) (k : String)
    (h : get_draft_session store sid = some sess) :
    update_draft_session store sid nv st =
      .ok (set_session_metadata store sid (mergeDicts sess.filled_values nv) st,
        { sess with filled_values := mergeDicts sess.filled_values nv, status := st }) ∧
    dictGet (mergeDicts sess.filled_values nv) k =
      (dictGet nv k).orElse (fun _ => dictGet sess.filled_values k) ∧
    filledOf (set_session_metadata store sid (mergeDicts sess.filled_values nv) st) sid =
      mergeDicts sess.filled_values nv := by
  refine ⟨?_, dictGet_mergeDicts _ _ _, ?_⟩
  · simp [update_draft_session, h]
  · simp [filledOf, get_set_session, h]

/-- The session produced by merging `c4NV` into `c4Sess`. -/
def c4SessAfter : DraftSession :=
  { c4Sess with filled_values := mergeDicts c4Sess.filled_values c4NV, status := "in_progress" }

/-- Witness for C4: merging `{v2: "b"}` into a session holding
`{v1: "a"}` yields exactly `{v1: "a", v2: "b"}`. -/
theorem merge_last_write_wins_witness :
    (update_draft_session c4Store "s" c4NV "in_progress" =
      .ok (set_session_metadata c4Store "s" (mergeDicts c4Sess.filled_values c4NV) "in_progress",
        c4SessAfter) ∧
    dictGet (mergeDicts c4Sess.filled_values c4NV) "v2" =
      (dictGet c4NV "v2").orElse (fun _ => dictGet c4Sess.filled_values "v2") ∧
    filledOf (set_session_metadata c4Store "s"
        (mergeDicts c4Sess.filled_values c4NV) "in_progress") "s" =
      mergeDicts c4Sess.filled_values c4NV) ∧
    mergeDicts c4Sess.filled_values c4NV =
      [("v1", .vstr "a".data), ("v2", .vstr "b".data)] :=
  ⟨merge_last_write_wins c4Store "s" c4NV "in_progress" c4Sess "v2" rfl, by decide⟩

/-- C5 (confirmed).  The recomputed missing list is exactly the required
variables whose key is absent from `filled_values`, in template variable
order (it is a sublist of the variable list, and membership is equivalent
to being a required variable with an unfilled key); on the spec's own
example `[v1, v2, v3]` with `{v2: "x"}` it is `[v1, v3]`. -/
theorem missing_variables_spec (vars : List VariableSchema) (filled : Dict)
    (v : VariableSchema) :
    (get_missing_variables vars filled).Sublist vars ∧
    (v ∈ get_missing_variables vars filled ↔
      v ∈ vars ∧ v.required = true ∧ hasKey filled v.key = false) ∧
    get_missing_variables [mkReqVar "v1", mkReqVar "v2", mkReqVar "v3"]
        [("v2", .vstr "x".data)] = [mkReqVar "v1", mkReqVar "v3"] := by
  refine ⟨List.filter_sublist _, ?_, by decide⟩
  simp [get_missing_variables, List.mem_filter, and_assoc]

/-- C10 (code_bug).  The completion check itself behaves as claimed: the
variable `x`, whose key is present with value `None`, is excluded from the
missing list, the missing list of the `None`/`""` session `c10Session` is
empty (the session is READY_TO_RENDER in the spec's sense), and the engine
renders those answers as `"A: None B: "`.  But the handler that should
then render and complete never does: `submit_answers` passes plain dicts
to `get_missing_variables` (line 300), the `v.required` attribute access
raises `AttributeError`, and the call returns an HTTP 500 with the session
left `in_progress` — the claimed render-and-complete outcome is
unreachable through the endpoint for any template with variables. -/
theorem completion_ignores_value :
    mkReqVar "x" ∉ get_missing_variables demoTemplate.vars c10Session.filled_values ∧
    get_missing_variables demoTemplate.vars c10Session.filled_values = [] ∧
    generate_draft demoTemplate.markdown_content c10Session.filled_values =
      "A: None B: ".data ∧
    (submit_answers demoTStore c10Store "s2" []).1 = .internalError attrErrorMsg ∧
    statusOf (submit_answers demoTStore c10Store "s2" []).2 "s2" = some "in_progress" := by
  refine ⟨by decide, by decide, by decide, by decide, by decide⟩

/-- C1 counterexample.  The claim says that once a session is completed
every later write is rejected or a no-op and never reverts the status.  On
the code, updating the completed session `c1Session` with the default
`"in_progress"` status succeeds and reverts the status; and
`submit_answers` on that session is neither a rejection nor a no-op: its
unconditional merge (line 292) persists the revert to `"in_progress"`
before the handler dies with the `AttributeError`-driven 500 of line 300
(so the failure it does produce is not the claimed `InvalidTransition`
guard — it hits every template with variables, regardless of status, and
only after the reverting write has landed). -/
theorem completed_session_reverts_cex :
    statusOf c1Store "s1" = some "completed" ∧
    update_draft_session c1Store "s1" [] "in_progress" =
      .ok ([{ c1Session with status := "in_progress" }],
        { c1Session with status := "in_progress" }) ∧
    statusOf (runUpdate c1Store "s1" [] "in_progress") "s1" = some "in_progress" ∧
    (submit_answers demoTStore c1Store "s1" []).1 = .internalError attrErrorMsg ∧
    statusOf (submit_answers demoTStore c1Store "s1" []).2 "s1" = some "in_progress" := by
  refine ⟨by decide, rfl, by decide, by decide, by decide⟩

/-- C1 as amended: session status is not monotonic.  `update_draft_session`
never inspects the stored status: for any session — in particular one whose
status is `"completed"` — an update with the default `"in_progress"` status
succeeds and persists status `"in_progress"`.  `submit_answers` on a
completed session performs exactly such a reverting merge first (line 292)
and then fails with a generic 500 (the dict-passing `AttributeError` of
line 300, which hits every template with at least one variable regardless
of session status), leaving the session reverted to `"in_progress"` —
there is no `InvalidTransition` rejection anywhere. -/
theorem status_not_monotonic (store : SessionStore) (sid : String) (nv : Dict)
    (sess : DraftSession) (h : get_draft_session store sid = some sess)
    (hc : sess.status = "completed") :
    statusOf store sid = some "completed" ∧
    update_draft_session store sid nv "in_progress" =
      .ok (set_session_metadata store sid (mergeDicts sess.filled_values nv) "in_progress",
        { sess with filled_values := mergeDicts sess.filled_values nv, status := "in_progress" }) ∧
    statusOf (set_session_metadata store sid (mergeDicts sess.filled_values nv) "in_progress")
      sid = some "in_progress" ∧
    (submit_answers demoTStore c1Store "s1" []).1 = .internalError attrErrorMsg ∧
    statusOf (submit_answers demoTStore c1Store "s1" []).2 "s1" = some "in_progress" := by
  refine ⟨by simp [statusOf, h, hc], by simp [update_draft_session, h], ?_, by decide, by decide⟩
  simp [statusOf, get_set_session, h]

/-- Witness for C1's amended theorem at the completed session `c1Session`. -/
theorem status_not_monotonic_witness :
    statusOf c1Store "s1" = some "completed" ∧
    update_draft_session c1Store "s1" [] "in_progress" =
      .ok (set_session_metadata c1Store "s1" (mergeDicts c1Session.filled_values []) "in_progress",
        { c1Session with filled_values := mergeDicts c1Session.filled_values [], status := "in_progress" }) ∧
    statusOf (set_session_metadata c1Store "s1" (mergeDicts c1Session.filled_values []) "in_progress")
      "s1" = some "in_progress" ∧
    (submit_answers demoTStore c1Store "s1" []).1 = .internalError attrErrorMsg ∧
    statusOf (submit_answers demoTStore c1Store "s1" []).2 "s1" = some "in_progress" :=
  status_not_monotonic c1Store "s1" [] c1Session rfl rfl

/-- C2 counterexample.  The claim says that when the embedding provider
fails, `create_template` fails with `UpstreamUnavailable` and persists
nothing, and that no execution stores a zero vector.  On the code,
`embed_text` swallows the failure into `[0.0] * 768` and `create_template`
persists the record with that zero vector and returns it as a success. -/
theorem zero_vector_persisted_cex :
    (create_template (fun _ => none) [] "t9" "n" "IN" "d" [] [] "t0").2.values =
      ZERO_VECTOR ∧
    (create_template (fun _ => none) [] "t9" "n" "IN" "d" [] [] "t0").1 =
      [("in", (create_template (fun _ => none) [] "t9" "n" "IN" "d" [] [] "t0").2)] :=
  ⟨rfl, rfl⟩

/-- C2 as amended: on embedding failure `embed_text` returns the
768-dimensional zero vector (its `except` fallback) and `create_template`
persists the template record with that zero vector under the matter-type
namespace and returns it; template creation has no failure path. -/
theorem create_template_zero_fallback (provider : EmbedProvider) (store : TemplateStore)
    (fid nm mt desc : String) (md : Str) (vs : List VariableSchema) (ts : String)
    (h : provider (embeddingText mt desc md) = none) :
    embed_text provider (embeddingText mt desc md) = ZERO_VECTOR ∧
    create_template provider store fid nm mt desc md vs ts =
      ((normalizeNamespace mt,
        { id := fid, name := nm, matter_type := mt, description := desc,
          markdown_content := md, vars := vs, values := ZERO_VECTOR, created_at := ts }) :: store,
       { id := fid, name := nm, matter_type := mt, description := desc,
         markdown_content := md, vars := vs, values := ZERO_VECTOR, created_at := ts }) := by
  constructor
  · simp [embed_text, h]
  · simp [create_template, embed_text, h]

/-- Witness for C2's amended theorem at an always-failing provider. -/
theorem create_template_zero_fallback_witness :
    embed_text (fun _ => none) (embeddingText "IN" "d" []) = ZERO_VECTOR ∧
    create_template (fun _ => none) [] "t9" "n" "IN" "d" [] [] "t0" =
      ((normalizeNamespace "IN",
        { id := "t9", name := "n", matter_type := "IN", description := "d",
          markdown_content := [], vars := [], values := ZERO_VECTOR, created_at := "t0" }) :: [],
       { id := "t9", name := "n", matter_type := "IN", description := "d",
         markdown_content := [], vars := [], values := ZERO_VECTOR, created_at := "t0" }) :=
  create_template_zero_fallback (fun _ => none) [] "t9" "n" "IN" "d" [] [] "t0" rfl

/-- A template stored under the namespace of matter type `"NDA"`. -/
def c3Row : TemplateRow :=
  { id := "t1", name := "NDA Template", matter_type := "NDA", description := "d",
    markdown_content := [], vars := [], values := [], created_at := "t0" }

/-- A template store in which id `"t1"` exists only in partition `"nda"`. -/
def c3Store : TemplateStore := [("nda", c3Row)]

/-- C3 counterexample.  The claim says `getById` probes all partitions and
returns `NotFound` only when the id exists in no partition.  On the code,
id `"t1"` exists (in partition `"nda"`, where the matching lookup finds
it), yet the lookup through the hard-coded `"IN"` matter type used by the
HTTP handler returns `NotFound`. -/
theorem lookup_misses_other_partition_cex :
    ("nda", c3Row) ∈ c3Store ∧ c3Row.id = "t1" ∧
    get_template_by_id c3Store "t1" "NDA" = some c3Row ∧
    get_template_by_id c3Store "t1" "IN" = none := by
  refine ⟨by decide, by decide, by decide, by decide⟩

/-- C3 as amended: `get_template_by_id` probes only the single partition
derived from the caller-supplied matter type — a successful lookup always
comes from the entry stored under `normalizeNamespace matter_type` — and a
template stored under any other partition is reported as `NotFound`, as the
concrete store `c3Store` shows. -/
theorem get_template_by_id_single_partition (store : TemplateStore) (tid mt : String)
    (r : TemplateRow) (h : get_template_by_id store tid mt = some r) :
    (normalizeNamespace mt, r) ∈ store ∧ r.id = tid ∧
    get_template_by_id c3Store "t1" "IN" = none ∧ ("nda", c3Row) ∈ c3Store ∧
    c3Row.id = "t1" := by
  have hres : (normalizeNamespace mt, r) ∈ store ∧ r.id = tid := by
    unfold get_template_by_id at h
    rcases hf : store.find? (fun e => e.1 == normalizeNamespace mt && e.2.id == tid) with _ | e
    · rw [hf] at h; simp at h
    · rw [hf] at h
      obtain ⟨e1, e2⟩ := e
      simp only [Option.map_some'] at h
      have he : e2 = r := by simpa using h
      have hmem := List.mem_of_find?_eq_some hf
      have hp := List.find?_some hf
      simp only [Bool.and_eq_true, beq_iff_eq] at hp
      subst he
      exact ⟨by rw [← hp.1]; exact hmem, hp.2⟩
  exact ⟨hres.1, hres.2, by decide, by decide, by decide⟩

/-- Witness for C3's amended theorem at the matching-partition lookup. -/
theorem get_template_by_id_single_partition_witness :
    (normalizeNamespace "NDA", c3Row) ∈ c3Store ∧ c3Row.id = "t1" ∧
    get_template_by_id c3Store "t1" "IN" = none ∧ ("nda", c3Row) ∈ c3Store ∧
    c3Row.id = "t1" :=
  get_template_by_id_single_partition c3Store "t1" "NDA" c3Row (by decide)

/-- Rendering a body in which no present key's placeholder occurs leaves
the body verbatim. -/
theorem generate_draft_of_no_occurrence (body : Str) (values : Dict)
    (h : ∀ kv ∈ values, hasOccurrence (placeholder kv.1) body = false) :
    generate_draft body values = body := by
  induction values with
  | nil => rfl
  | cons kv rest ih =>
    have h0 := h kv (List.mem_cons_self kv rest)
    calc generate_draft body (kv :: rest)
        = generate_draft (replaceAll body (placeholder kv.1) (pyStr kv.2)) rest := rfl
      _ = generate_draft body rest := by rw [replaceAll_of_no_occurrence _ _ _ h0]
      _ = body := ih (fun kv2 hkv2 => h kv2 (List.mem_cons_of_mem _ hkv2))

/-- The rendering counterexample body `{{a}}`. -/
def c6Body : Str := placeholder "a"

/-- Answers inserted in the order `a`, `b`; the value for `a` itself
contains the placeholder text `{{b}}` (a perfectly legal answer string). -/
def c6V1 : Dict := [("a", .vstr (placeholder "b")), ("b", .vstr "X".data)]

/-- The same mapping with the opposite insertion order. -/
def c6V2 : Dict := [("b", .vstr "X".data), ("a", .vstr (placeholder "b"))]

/-- C6 counterexample.  The claim says rendering is independent of the
order in which keys are substituted.  `c6V1` and `c6V2` are the same
mapping (a permutation with identical per-key lookups), yet rendering the
body `{{a}}` yields `"X"` in one order (the substituted value `{{b}}` is
hit by the later replacement of `b`) and `{{b}}` in the other. -/
theorem render_order_dependent_cex :
    c6V1.Perm c6V2 ∧
    dictGet c6V1 "a" = dictGet c6V2 "a" ∧ dictGet c6V1 "b" = dictGet c6V2 "b" ∧
    generate_draft c6Body c6V1 = "X".data ∧
    generate_draft c6Body c6V2 = placeholder "b" ∧
    generate_draft c6Body c6V1 ≠ generate_draft c6Body c6V2 := by
  refine ⟨by decide, by decide, by decide, by decide, by decide, by decide⟩

/-- A body with two placeholders, `{{name}}` and `{{case_id}}`
(braces written as escapes to keep them out of code position). -/
def c6RenderBody : Str :=
  "Dear \x7b\x7bname\x7d\x7d, re \x7b\x7bcase_id\x7d\x7d.".data

/-- C6 as amended: rendering is a pure sequential text replacement in the
map's iteration order — each entry replaces every occurrence of its
`{{key}}` by `str(value)` in the text produced so far, so the result is a
deterministic function of the body and the ordered entries, placeholders
of keys that never occur are left verbatim, and (for any value `v`)
substituting `name` into `c6RenderBody` yields the body with `v` spliced
in and the unfilled `{{case_id}}` untouched.  It is *not* independent of
the key order when a substituted value itself contains placeholder text
(see the counterexample). -/
theorem render_sequential_replacement (v : Str) (body : Str) (values : Dict)
    (h : ∀ kv ∈ values, hasOccurrence (placeholder kv.1) body = false) :
    generate_draft body values = body ∧
    generate_draft c6RenderBody [("name", .vstr v)] =
      "Dear ".data ++ v ++ (", re ".data ++ placeholder "case_id" ++ ".".data) :=
  ⟨generate_draft_of_no_occurrence body values h, rfl⟩

/-- Witness for C6's amended theorem. -/
theorem render_sequential_replacement_witness :
    generate_draft "No placeholders here.".data [("z", .vstr "1".data)] =
      "No placeholders here.".data ∧
    generate_draft c6RenderBody [("name", .vstr "Acme".data)] =
      "Dear ".data ++ "Acme".data ++ (", re ".data ++ placeholder "case_id" ++ ".".data) :=
  render_sequential_replacement "Acme".data "No placeholders here.".data
    [("z", .vstr "1".data)] (by decide)

/-- A raw session row whose serialized payload is not valid JSON. -/
def brokenRow : RawSessionRow :=
  { session_id := "s1", template_id := "t1",
    filled_values_json := "\x7bbroken".data,
    status := "in_progress", created_at := "t0" }

/-- C7 counterexample.  The claim says a read whose stored payload fails
to parse never returns an empty map as if that were the stored content.
On the code, the row `brokenRow` fails to parse, yet
`get_draft_session` returns a successful session whose `filled_values`
is the empty dict — no typed error is surfaced. -/
theorem parse_failure_returns_empty_cex :
    parseJsonDict brokenRow.filled_values_json = none ∧
    get_draft_session_raw [brokenRow] "s1" =
      some { session_id := "s1", template_id := "t1", filled_values := [], status := "in_progress", created_at := "t0" } := by
  refine ⟨by decide, by decide⟩

/-- C7 as amended: the store layer swallows parse failures into defaults —
for every raw row whose `filled_values_json` fails to parse, the decoded
session carries the empty dict as its `filled_values`, and the read is
reported as a success, not as a typed error. -/
theorem parse_failure_swallowed (r : RawSessionRow)
    (h : parseJsonDict r.filled_values_json = none) :
    decode_session_row r =
      { session_id := r.session_id, template_id := r.template_id, filled_values := [], status := r.status, created_at := r.created_at } ∧
    get_draft_session_raw [r] r.session_id = some (decode_session_row r) := by
  constructor
  · simp [decode_session_row, h]
  · simp [get_draft_session_raw, List.find?]

/-- Witness for C7's amended theorem at the malformed row `brokenRow`. -/
theorem parse_failure_swallowed_witness :
    decode_session_row brokenRow =
      { session_id := brokenRow.session_id, template_id := brokenRow.template_id, filled_values := [], status := brokenRow.status, created_at := brokenRow.created_at } ∧
    get_draft_session_raw [brokenRow] brokenRow.session_id =
      some (decode_session_row brokenRow) :=
  parse_failure_swallowed brokenRow (by decide)

/-- C8 counterexample.  The claim says session creation fails with
`NotFound` (creating no session) whenever the template id does not
resolve.  On the code, with an *empty* template store — where the id
`"ghost"` resolves nowhere — `create_draft_session` succeeds, persists the
session, and even copies a non-empty initial context into
`filled_values`. -/
def ghostSession : DraftSession :=
  { session_id := "s9", template_id := "ghost",
    filled_values := [("k", .vstr "v".data)], status := "in_progress",
    created_at := "t0" }

theorem create_session_no_template_check_cex :
    get_template_by_id ([] : TemplateStore) "ghost" "IN" = none ∧
    create_draft_session [] "s9" "ghost" [("k", .vstr "v".data)] "t0" =
      ([ghostSession], ghostSession) := by
  refine ⟨by decide, by decide⟩

/-- C8 as amended: `create_draft_session` performs no template-existence
check at all (its inputs do not even include the template store): for
every store, template id and initial context it succeeds, persists the new
row, and returns a session with status `"in_progress"` whose
`filled_values` equal the supplied initial context (empty when the context
is empty). -/
theorem create_session_unchecked (store : SessionStore) (fid tid : String)
    (ctx : Dict) (ts : String) :
    (create_draft_session store fid tid ctx ts).2.status = "in_progress" ∧
    (create_draft_session store fid tid ctx ts).2.filled_values = ctx ∧
    (create_draft_session store fid tid ctx ts).2.template_id = tid ∧
    get_draft_session (create_draft_session store fid tid ctx ts).1 fid =
      some (create_draft_session store fid tid ctx ts).2 := by
  refine ⟨rfl, rfl, rfl, ?_⟩
  simp [create_draft_session, get_draft_session, List.find?]

/-- The starting store for the lost-update interleaving: one fresh session. -/
def c9S0 : SessionStore :=
  [{ session_id := "s", template_id := "t1", filled_values := [],
     status := "in_progress", created_at := "t0" }]

/-- Handler A's submission. -/
def c9A : Dict := [("a", .vstr "1".data)]

/-- Handler B's submission, touching a disjoint key. -/
def c9B : Dict := [("b", .vstr "2".data)]

/-- The interleaved execution: A runs `update_draft_session` to completion
(read from `c9S0`, merge, write); B has already performed its *read* stage
against `c9S0` (before A's write landed), so its write stage applies the
merge of its stale snapshot `filledOf c9S0 "s"` with `c9B` on top of A's
result. -/
def c9Final : SessionStore :=
  set_session_metadata (runUpdate c9S0 "s" c9A "in_progress") "s"
    (mergeDicts (filledOf c9S0 "s") c9B) "in_progress"

/-- C9 counterexample.  The claim says two concurrent merges touching
disjoint keys both survive and that the read-modify-write is a single
atomic unit.  The code's `update_draft_session` is an unguarded read
(`get_draft_session`) followed by a blind write (`set_session_metadata`) —
the first conjunct exhibits exactly that decomposition — so in the
interleaving `c9Final`, where both handlers read before either wrote,
handler A's key `"a"` is lost even though the two submissions touch
disjoint keys. -/
theorem interleaved_merge_lost_update_cex :
    update_draft_session c9S0 "s" c9A "in_progress" =
      .ok (set_session_metadata c9S0 "s" (mergeDicts (filledOf c9S0 "s") c9A) "in_progress",
        { session_id := "s", template_id := "t1", filled_values := mergeDicts (filledOf c9S0 "s") c9A, status := "in_progress", created_at := "t0" }) ∧
    dictGet (filledOf c9Final "s") "a" = none ∧
    dictGet (filledOf c9Final "s") "b" = some (.vstr "2".data) := by
  refine ⟨rfl, by decide, by decide⟩

/-- C9 as amended: the merge is an independent read followed by a write,
so an interleaving in which both handlers read before either writes loses
one handler's keys (the counterexample); when the two merges execute
sequentially (each read sees the other's committed write), a key submitted
by the first merge and untouched by the second survives into the final
`filled_values` with the first merge's value. -/
theorem sequential_merges_preserve (store : SessionStore) (sid : String)
    (nvA nvB : Dict) (sess : DraftSession) (k : String)
    (h : get_draft_session store sid = some sess)
    (hA : hasKey nvA k = true) (hB : hasKey nvB k = false) :
    dictGet (filledOf
        (runUpdate (runUpdate store sid nvA "in_progress") sid nvB "in_progress") sid) k =
      dictGet nvA k := by
  have h1 : runUpdate store sid nvA "in_progress" =
      set_session_metadata store sid (mergeDicts sess.filled_values nvA) "in_progress" := by
    simp [runUpdate, update_draft_session, h]
  have h2 : get_draft_session (runUpdate store sid nvA "in_progress") sid =
      some { sess with filled_values := mergeDicts sess.filled_values nvA, status := "in_progress" } := by
    rw [h1, get_set_session, h]
    rfl
  generalize hst : runUpdate store sid nvA "in_progress" = store1 at h2 ⊢
  have h3 : runUpdate store1 sid nvB "in_progress" =
      set_session_metadata store1 sid
        (mergeDicts (mergeDicts sess.filled_values nvA) nvB) "in_progress" := by
    simp [runUpdate, update_draft_session, h2]
  have h4 : filledOf (runUpdate store1 sid nvB "in_progress") sid =
      mergeDicts (mergeDicts sess.filled_values nvA) nvB := by
    rw [h3]
    simp [filledOf, get_set_session, h2]
  rw [h4, dictGet_mergeDicts, dictGet_mergeDicts]
  have hBn : dictGet nvB k = none := (hasKey_eq_false_iff _ _).mp hB
  obtain ⟨w, hw⟩ := Option.isSome_iff_exists.mp ((hasKey_eq_true_iff _ _).mp hA)
  simp [hBn, hw, Option.orElse]

/-- Witness for C9's amended theorem: run A's and B's merges sequentially
from `c9S0`; A's key `"a"` survives with A's value. -/
def c9Sess : DraftSession :=
  { session_id := "s", template_id := "t1", filled_values := [],
    status := "in_progress", created_at := "t0" }

theorem sequential_merges_preserve_witness :
    dictGet (filledOf
        (runUpdate (runUpdate c9S0 "s" c9A "in_progress") "s" c9B "in_progress") "s") "a" =
      dictGet c9A "a" :=
  sequential_merges_preserve c9S0 "s" c9A c9B c9Sess "a" rfl (by decide) (by decide)

end Lexi
